import Mathlib

/-!
Verification of the file-backed `ktxStream` implementation
(`src/lib/ktxfilestream.c`).

The embedding models the POSIX stdio layer (`fread`, `fwrite`, `fseek`,
`ftello`, `fstat`) on a state `FileState` holding the byte content of a
regular file, the stream cursor, and an optional device byte capacity
(`none` = the device accepts every write, as a regular file with free
space does; `some c` = at most `c` bytes of backing storage, letting
`fwrite` come up short the way a full device does).

On top of that layer, each `ktxFileStream_*` function from the C source
is translated directly.  NULL pointer arguments are modelled by `Option`
(`none` = NULL) for the stream handle and the data buffers, and by a
`Bool` presence flag for pure output pointers.  `GLsizei` and `off_t`
arguments are modelled as `Int`; the implicit C conversion to `size_t`
at the stdio call sites is made explicit by `toSizeT`.
-/

set_option autoImplicit false

namespace KtxFileStream

/-- The subset of `KTX_error_code` values used by `ktxfilestream.c`. -/
inductive KTXErr where
  | KTX_SUCCESS
  | KTX_INVALID_VALUE
  | KTX_INVALID_OPERATION
  | KTX_UNEXPECTED_END_OF_FILE
  | KTX_FILE_WRITE_ERROR
  deriving DecidableEq, Repr

open KTXErr

/-- State of an open regular file plus its stream cursor.

`content` is the byte sequence stored in the file (each entry `< 256`,
though nothing below depends on that bound), `pos` the current file
offset — which POSIX allows to lie beyond the end of the file — and
`cap` the optional device capacity in bytes. -/
structure FileState where
  content : List Nat
  pos : Nat
  cap : Option Nat
  deriving DecidableEq, Repr

/-- Overwrite the bytes of `c` starting at offset `p` with `bs`,
zero-filling the gap when `p` lies beyond the end of `c` (POSIX holes
read back as zero bytes) and keeping any bytes after the written
region. -/
def writeBytes (c : List Nat) (p : Nat) (bs : List Nat) : List Nat :=
  (c.take p ++ List.replicate (p - c.length) 0) ++ bs ++ c.drop (p + bs.length)

/-- C conversion of a signed integer value to `size_t` (64-bit):
reduction modulo `2 ^ 64`, so negative values become huge. -/
def toSizeT (i : Int) : Nat :=
  (i % 2 ^ 64).toNat

/-- `fread(dst, size, nmemb, f)`: returns the bytes placed in `dst`,
the number of *complete* items read, and the file state afterwards.
If `size` or `nmemb` is zero it returns zero and leaves the stream
untouched (C11 7.21.8.1); on a short read it transfers the remaining
bytes and the partial item does not count. -/
def fread (st : FileState) (size nmemb : Nat) : List Nat × Nat × FileState :=
  if size = 0 ∨ nmemb = 0 then ([], 0, st)
  else
    let avail := st.content.length - st.pos
    let bytesRead := min (size * nmemb) avail
    ((st.content.drop st.pos).take bytesRead, bytesRead / size,
      { st with pos := st.pos + bytesRead })

/-- `fwrite(src, size, nmemb, f)`: returns the number of complete items
written and the file state afterwards.  If `size` or `nmemb` is zero it
returns zero and leaves the stream untouched (C11 7.21.8.2).  A device
of capacity `c` accepts only items that fit entirely below offset `c`;
writing past the current end of file extends it (holes zero-filled). -/
def fwrite (st : FileState) (src : List Nat) (size nmemb : Nat) : Nat × FileState :=
  if size = 0 ∨ nmemb = 0 then (0, st)
  else
    let items := match st.cap with
      | none => nmemb
      | some c => min nmemb ((c - st.pos) / size)
    if items = 0 then (0, st)
    else
      (items, { st with
                  content := writeBytes st.content st.pos (src.take (items * size)),
                  pos := st.pos + items * size })

/-- Origin argument of `fseek`/`fseeko`. -/
inductive Whence where
  | set
  | cur
  deriving DecidableEq, Repr

/-- `fseek`/`fseeko` on a regular file: any non-negative target offset
succeeds, including offsets beyond the end of file; a negative target
fails (EINVAL) and leaves the state unchanged (`none`). -/
def fseekFile (st : FileState) (offset : Int) (w : Whence) : Option FileState :=
  let target : Int := match w with
    | .set => offset
    | .cur => (st.pos : Int) + offset
  if target < 0 then none
  else some { st with pos := target.toNat }

/-- `ftello(f)`: the current file offset. -/
def ftello (st : FileState) : Int :=
  (st.pos : Int)

/-- `fstat` on the file descriptor behind a valid open `FILE*`:
succeeds and reports `st_size`, the byte length of the file. -/
def fstatSize (st : FileState) : Option Nat :=
  some st.content.length

/-- `ktxFileStream_read(str, dst, size)` from `ktxfilestream.c`:
NULL checks, then `fread(dst, size, 1)`, failing with
`KTX_UNEXPECTED_END_OF_FILE` unless exactly one item was read.
Returns the error code, the file state afterwards, and the bytes
deposited in `dst`. -/
def ktxFileStream_read (str : Option FileState) (dst : Bool) (size : Int) :
    KTXErr × Option FileState × List Nat :=
  match str with
  | none => (KTX_INVALID_VALUE, none, [])
  | some st =>
    if !dst then (KTX_INVALID_VALUE, some st, [])
    else
      let r := fread st (toSizeT size) 1
      if r.2.1 ≠ 1 then (KTX_UNEXPECTED_END_OF_FILE, some r.2.2, r.1)
      else (KTX_SUCCESS, some r.2.2, r.1)

/-- `ktxFileStream_skip(str, count)` from `ktxfilestream.c`:
NULL / negative-count checks, then `fseek(f, count, SEEK_CUR)`,
reporting `KTX_UNEXPECTED_END_OF_FILE` when the seek fails. -/
def ktxFileStream_skip (str : Option FileState) (count : Int) :
    KTXErr × Option FileState :=
  match str with
  | none => (KTX_INVALID_VALUE, none)
  | some st =>
    if count < 0 then (KTX_INVALID_VALUE, some st)
    else
      match fseekFile st count .cur with
      | none => (KTX_UNEXPECTED_END_OF_FILE, some st)
      | some st' => (KTX_SUCCESS, some st')

/-- `ktxFileStream_write(str, src, size, count)` from `ktxfilestream.c`:
NULL checks, then `fwrite(src, size, count)`, failing with
`KTX_FILE_WRITE_ERROR` unless all `count` items were written (the
comparison `fwrite(...) != count` converts `count` to `size_t`). -/
def ktxFileStream_write (str : Option FileState) (src : Option (List Nat))
    (size count : Int) : KTXErr × Option FileState :=
  match str with
  | none => (KTX_INVALID_VALUE, none)
  | some st =>
    match src with
    | none => (KTX_INVALID_VALUE, some st)
    | some s =>
      let r := fwrite st s (toSizeT size) (toSizeT count)
      if r.1 ≠ toSizeT count then (KTX_FILE_WRITE_ERROR, some r.2)
      else (KTX_SUCCESS, some r.2)

/-- `ktxFileStream_getpos(str, pos)` from `ktxfilestream.c`:
NULL checks, then `*pos = ftello(f)`.  The third component is the value
stored through the output pointer (`none` when nothing was stored). -/
def ktxFileStream_getpos (str : Option FileState) (posOut : Bool) :
    KTXErr × Option FileState × Option Int :=
  match str with
  | none => (KTX_INVALID_VALUE, none, none)
  | some st =>
    if !posOut then (KTX_INVALID_VALUE, some st, none)
    else (KTX_SUCCESS, some st, some (ftello st))

/-- `ktxFileStream_getsize(str, size)` with the outcome of the `fstat`
call passed in explicitly: `none` models a failing `fstat`, which the C
code maps to `KTX_FILE_WRITE_ERROR`. -/
def ktxFileStream_getsize_withStat (str : Option FileState) (sizeOut : Bool)
    (statResult : Option Nat) : KTXErr × Option FileState × Option Nat :=
  match str with
  | none => (KTX_INVALID_VALUE, none, none)
  | some st =>
    if !sizeOut then (KTX_INVALID_VALUE, some st, none)
    else
      match statResult with
      | none => (KTX_FILE_WRITE_ERROR, some st, none)
      | some n => (KTX_SUCCESS, some st, some n)

/-- `ktxFileStream_getsize(str, size)` from `ktxfilestream.c`:
NULL checks, then `fstat` on the open descriptor; on success `*size`
receives `st_size`. -/
def ktxFileStream_getsize (str : Option FileState) (sizeOut : Bool) :
    KTXErr × Option FileState × Option Nat :=
  ktxFileStream_getsize_withStat str sizeOut
    (match str with
     | none => none
     | some st => fstatSize st)

/-- `ktxFileStream_setpos(str, pos)` from `ktxfilestream.c`:
NULL check, then the file size is obtained through `str->getsize`; the
range check `pos > fileSize` compares the signed `off_t` against the
unsigned `size_t` size, converting `pos` to `size_t`; only then is
`fseeko(f, pos, SEEK_SET)` issued, whose failure is also reported as
`KTX_INVALID_OPERATION`. -/
def ktxFileStream_setpos (str : Option FileState) (pos : Int) :
    KTXErr × Option FileState :=
  match str with
  | none => (KTX_INVALID_VALUE, none)
  | some st =>
    let fileSize : Nat :=
      match (ktxFileStream_getsize (some st) true).2.2 with
      | some n => n
      | none => 0
    if toSizeT pos > fileSize then (KTX_INVALID_OPERATION, some st)
    else
      match fseekFile st pos .set with
      | none => (KTX_INVALID_OPERATION, some st)
      | some st' => (KTX_SUCCESS, some st')

end KtxFileStream

namespace KtxFileStream

open KTXErr

/-! ### Helper lemmas about the stdio layer -/

theorem writeBytes_prefix_length (c : List Nat) (p : Nat) :
    (c.take p ++ List.replicate (p - c.length) 0).length = p := by
  simp only [List.length_append, List.length_take, List.length_replicate]
  omega

theorem writeBytes_length (c : List Nat) (p : Nat) (bs : List Nat) :
    (writeBytes c p bs).length = max c.length (p + bs.length) := by
  simp only [writeBytes, List.length_append, List.length_take,
    List.length_replicate, List.length_drop]
  omega

theorem writeBytes_drop (c : List Nat) (p : Nat) (bs : List Nat) :
    (writeBytes c p bs).drop p = bs ++ c.drop (p + bs.length) := by
  unfold writeBytes
  rw [List.append_assoc]
  exact List.drop_left' (writeBytes_prefix_length c p)

theorem writeBytes_readback (c : List Nat) (p : Nat) (bs : List Nat) :
    ((writeBytes c p bs).drop p).take bs.length = bs := by
  rw [writeBytes_drop]
  exact List.take_left bs _

theorem toSizeT_eq_toNat (i : Int) (h0 : 0 ≤ i) (h : i < 2 ^ 64) :
    toSizeT i = i.toNat := by
  have h64 : (2 : Int) ^ 64 = 18446744073709551616 := by norm_num
  simp only [toSizeT, h64] at *
  omega

theorem toSizeT_neg_large (i : Int) (hneg : i < 0) (hlo : -(2 ^ 63) ≤ i) :
    2 ^ 63 ≤ toSizeT i := by
  have h64 : (2 : Int) ^ 64 = 18446744073709551616 := by norm_num
  have h63 : (2 : Int) ^ 63 = 9223372036854775808 := by norm_num
  simp only [toSizeT, h64, h63] at *
  omega

/-! ### Sample state used by witness theorems -/

/-- A small concrete file state: three bytes, cursor at the start,
unbounded device. -/
def sampleSt : FileState := ⟨[1, 2, 3], 0, none⟩

/-! ### Claim theorems -/

/-- Claim C1: the invariant `0 ≤ position ≤ size` after every successful
operation is broken by the code: on an empty file, `skip 60` succeeds
(`fseek` past the end of a regular file succeeds), after which
`getPosition` reports 60 while `getSize` reports 0. -/
theorem skip_violates_position_size_invariant :
    ktxFileStream_skip (some ⟨[], 0, none⟩) 60 = (KTX_SUCCESS, some ⟨[], 60, none⟩) ∧
    ktxFileStream_getpos (some ⟨[], 60, none⟩) true =
      (KTX_SUCCESS, some ⟨[], 60, none⟩, some 60) ∧
    ktxFileStream_getsize (some ⟨[], 60, none⟩) true =
      (KTX_SUCCESS, some ⟨[], 60, none⟩, some 0) ∧
    ¬((60 : Int) ≤ 0) := by
  decide

/-- Claim C4: `skip` past the end of the addressable data does not fail:
on a 100-byte file positioned at offset 50, `skip 60` returns
`KTX_SUCCESS` (the underlying `fseek(SEEK_CUR)` succeeds beyond the end
of a regular file), not `KTX_UNEXPECTED_END_OF_FILE` as the function's
own documentation promises. -/
theorem skip_past_end_returns_success :
    ktxFileStream_skip (some ⟨List.replicate 100 7, 50, none⟩) 60 =
      (KTX_SUCCESS, some ⟨List.replicate 100 7, 110, none⟩) ∧
    KTX_SUCCESS ≠ KTX_UNEXPECTED_END_OF_FILE := by
  decide

/-- Claim C9: a zero-byte read fails: `fread(dst, 0, 1)` transfers
nothing and returns zero items, the code demands exactly one item, so
`read` reports `KTX_UNEXPECTED_END_OF_FILE` with the state unchanged. -/
theorem read_zero_bytes_fails (st : FileState) :
    ktxFileStream_read (some st) true 0 =
      (KTX_UNEXPECTED_END_OF_FILE, some st, []) := by
  simp [ktxFileStream_read, fread, toSizeT]

/-- Claim C8: `getSize` answers from `fstat` on the open descriptor
without touching the cursor — on success the output receives the file's
byte count and the state is returned unchanged — while a failing
metadata query is reported as `KTX_FILE_WRITE_ERROR`. -/
theorem getsize_stat_behavior (st : FileState) :
    ktxFileStream_getsize (some st) true =
      (KTX_SUCCESS, some st, some st.content.length) ∧
    ktxFileStream_getsize_withStat (some st) true none =
      (KTX_FILE_WRITE_ERROR, some st, none) := by
  simp [ktxFileStream_getsize, ktxFileStream_getsize_withStat, fstatSize]

/-- Claim C2 counterexample: the write-then-read round trip fails for
the empty byte sequence: writing zero elements succeeds and
repositioning succeeds, but reading zero bytes back returns
`KTX_UNEXPECTED_END_OF_FILE`, not success. -/
theorem roundtrip_fails_for_empty_sequence :
    ktxFileStream_write (some ⟨[], 0, none⟩) (some []) 1 0 =
      (KTX_SUCCESS, some ⟨[], 0, none⟩) ∧
    ktxFileStream_setpos (some ⟨[], 0, none⟩) 0 = (KTX_SUCCESS, some ⟨[], 0, none⟩) ∧
    ktxFileStream_read (some ⟨[], 0, none⟩) true 0 =
      (KTX_UNEXPECTED_END_OF_FILE, some ⟨[], 0, none⟩, []) ∧
    KTX_UNEXPECTED_END_OF_FILE ≠ KTX_SUCCESS := by
  decide

/-- Claim C5: every operation rejects an absent stream handle, an absent
required buffer or output pointer, and a negative skip count with
`KTX_INVALID_VALUE`, returning before any backend I/O: the state handed
back is exactly the state handed in. -/
theorem null_and_negative_guards (st : FileState) (dst : Bool)
    (src : Option (List Nat)) (sz cnt c off : Int) (hc : c < 0) :
    ktxFileStream_read none dst sz = (KTX_INVALID_VALUE, none, []) ∧
    ktxFileStream_read (some st) false sz = (KTX_INVALID_VALUE, some st, []) ∧
    ktxFileStream_skip none c = (KTX_INVALID_VALUE, none) ∧
    ktxFileStream_skip (some st) c = (KTX_INVALID_VALUE, some st) ∧
    ktxFileStream_write none src sz cnt = (KTX_INVALID_VALUE, none) ∧
    ktxFileStream_write (some st) none sz cnt = (KTX_INVALID_VALUE, some st) ∧
    ktxFileStream_getpos none dst = (KTX_INVALID_VALUE, none, none) ∧
    ktxFileStream_getpos (some st) false = (KTX_INVALID_VALUE, some st, none) ∧
    ktxFileStream_setpos none off = (KTX_INVALID_VALUE, none) ∧
    ktxFileStream_getsize none dst = (KTX_INVALID_VALUE, none, none) ∧
    ktxFileStream_getsize (some st) false = (KTX_INVALID_VALUE, some st, none) := by
  refine ⟨rfl, rfl, rfl, ?_, rfl, rfl, rfl, rfl, rfl, rfl, rfl⟩
  simp [ktxFileStream_skip, hc]

/-- Witness for the null-argument and negative-skip guards at a concrete
instantiation with skip count `-1`. -/
theorem null_and_negative_guards_witness :
    (-1 : Int) < 0 ∧
    (ktxFileStream_read none true 0 = (KTX_INVALID_VALUE, none, []) ∧
     ktxFileStream_read (some sampleSt) false 0 = (KTX_INVALID_VALUE, some sampleSt, []) ∧
     ktxFileStream_skip none (-1) = (KTX_INVALID_VALUE, none) ∧
     ktxFileStream_skip (some sampleSt) (-1) = (KTX_INVALID_VALUE, some sampleSt) ∧
     ktxFileStream_write none none 0 0 = (KTX_INVALID_VALUE, none) ∧
     ktxFileStream_write (some sampleSt) none 0 0 = (KTX_INVALID_VALUE, some sampleSt) ∧
     ktxFileStream_getpos none true = (KTX_INVALID_VALUE, none, none) ∧
     ktxFileStream_getpos (some sampleSt) false = (KTX_INVALID_VALUE, some sampleSt, none) ∧
     ktxFileStream_setpos none 0 = (KTX_INVALID_VALUE, none) ∧
     ktxFileStream_getsize none true = (KTX_INVALID_VALUE, none, none) ∧
     ktxFileStream_getsize (some sampleSt) false = (KTX_INVALID_VALUE, some sampleSt, none)) :=
  ⟨by decide, null_and_negative_guards sampleSt true none 0 0 (-1) 0 (by decide)⟩

theorem toSizeT_natCast (n : Nat) (h : n < 2 ^ 64) : toSizeT (n : Int) = n := by
  unfold toSizeT
  omega

theorem fread_one_success (st : FileState) (n : Nat) (hn : 0 < n)
    (hle : st.pos + n ≤ st.content.length) :
    fread st n 1 =
      ((st.content.drop st.pos).take n, 1, { st with pos := st.pos + n }) := by
  have hc : ¬(n = 0 ∨ (1 : Nat) = 0) := by omega
  have hmin : min (n * 1) (st.content.length - st.pos) = n := by omega
  rw [fread, if_neg hc]
  simp only [hmin, Nat.div_self hn]

theorem fread_one_short (st : FileState) (n : Nat) (hn : 0 < n)
    (hlt : st.content.length < st.pos + n) :
    (fread st n 1).2.1 = 0 := by
  have hc : ¬(n = 0 ∨ (1 : Nat) = 0) := by omega
  rw [fread, if_neg hc]
  simp only []
  exact Nat.div_eq_of_lt (by omega)

theorem fwrite_full (st : FileState) (src : List Nat) (size nmemb : Nat)
    (hs : 0 < size) (hm : 0 < nmemb) (hcap : st.cap = none) :
    fwrite st src size nmemb =
      (nmemb, { st with
                  content := writeBytes st.content st.pos (src.take (nmemb * size)),
                  pos := st.pos + nmemb * size }) := by
  have hc : ¬(size = 0 ∨ nmemb = 0) := by omega
  rw [fwrite, if_neg hc]
  simp only [hcap]
  rw [if_neg (by omega : ¬nmemb = 0)]

theorem fwrite_short (st : FileState) (src : List Nat) (size nmemb c : Nat)
    (hs : 0 < size) (hm : 0 < nmemb) (hcap : st.cap = some c)
    (hlt : c < st.pos + nmemb * size) :
    (fwrite st src size nmemb).1 < nmemb := by
  have hc : ¬(size = 0 ∨ nmemb = 0) := by omega
  have hdiv : (c - st.pos) / size < nmemb := by
    apply Nat.div_lt_of_lt_mul
    have hmc : nmemb * size = size * nmemb := Nat.mul_comm nmemb size
    have hpos : 0 < size * nmemb := Nat.mul_pos hs hm
    omega
  rw [fwrite, if_neg hc]
  simp only [hcap]
  split
  · omega
  · simp only []
    omega

/-- Claim C6: `read` is all-or-nothing: with at least `size` bytes
remaining it succeeds, deposits exactly `size` bytes taken at the
current position into the destination and advances the position by
`size`; with fewer than `size` bytes remaining it reports
`KTX_UNEXPECTED_END_OF_FILE`, never a partial success. -/
theorem read_all_or_nothing (st stShort : FileState) (sz : Int)
    (h1 : 0 < sz) (h2 : sz < 2 ^ 31)
    (hle : st.pos + sz.toNat ≤ st.content.length)
    (hshort : stShort.content.length < stShort.pos + sz.toNat) :
    (ktxFileStream_read (some st) true sz =
       (KTX_SUCCESS, some { st with pos := st.pos + sz.toNat },
        (st.content.drop st.pos).take sz.toNat) ∧
     ((st.content.drop st.pos).take sz.toNat).length = sz.toNat) ∧
    (ktxFileStream_read (some stShort) true sz).1 = KTX_UNEXPECTED_END_OF_FILE := by
  have hts : toSizeT sz = sz.toNat := toSizeT_eq_toNat sz (le_of_lt h1) (by omega)
  have hn : 0 < sz.toNat := by omega
  refine ⟨⟨?_, ?_⟩, ?_⟩
  · simp [ktxFileStream_read, hts, fread_one_success st sz.toNat hn hle]
  · simp only [List.length_take, List.length_drop]
    omega
  · have hf := fread_one_short stShort sz.toNat hn hshort
    simp [ktxFileStream_read, hts, hf]

/-- Witness for the read all-or-nothing law: on a 3-byte file a 2-byte
read at position 0 succeeds and a 2-byte read at position 2 fails. -/
theorem read_all_or_nothing_witness :
    ((0 : Int) < 2 ∧ (2 : Int) < 2 ^ 31 ∧
     sampleSt.pos + (2 : Int).toNat ≤ sampleSt.content.length ∧
     (FileState.mk [1, 2, 3] 2 none).content.length <
       (FileState.mk [1, 2, 3] 2 none).pos + (2 : Int).toNat) ∧
    (ktxFileStream_read (some sampleSt) true 2 =
       (KTX_SUCCESS, some { sampleSt with pos := sampleSt.pos + (2 : Int).toNat },
        (sampleSt.content.drop sampleSt.pos).take (2 : Int).toNat) ∧
     ((sampleSt.content.drop sampleSt.pos).take (2 : Int).toNat).length =
       (2 : Int).toNat) ∧
    (ktxFileStream_read (some (FileState.mk [1, 2, 3] 2 none)) true 2).1 =
      KTX_UNEXPECTED_END_OF_FILE :=
  ⟨⟨by norm_num, by norm_num, by decide, by decide⟩,
   read_all_or_nothing sampleSt (FileState.mk [1, 2, 3] 2 none) 2 (by norm_num)
     (by norm_num) (by decide) (by decide)⟩

/-- Claim C3: `setPosition` with an offset strictly beyond the current
size fails with `KTX_INVALID_OPERATION`; the check happens against the
`fstat` size before the seek is issued, and the returned state is
exactly the input state. -/
theorem setpos_beyond_size_rejected (st : FileState) (off : Int)
    (h0 : 0 ≤ off) (hlt : off < 2 ^ 63) (hgt : (st.content.length : Int) < off) :
    ktxFileStream_setpos (some st) off = (KTX_INVALID_OPERATION, some st) := by
  have hts : toSizeT off = off.toNat := toSizeT_eq_toNat off h0 (by omega)
  have hcmp : st.content.length < toSizeT off := by omega
  simp [ktxFileStream_setpos, ktxFileStream_getsize, ktxFileStream_getsize_withStat,
    fstatSize, hcmp]

/-- Witness for the out-of-range `setPosition` rejection: offset 4 on a
3-byte file. -/
theorem setpos_beyond_size_rejected_witness :
    ((0 : Int) ≤ 4 ∧ (4 : Int) < 2 ^ 63 ∧ (sampleSt.content.length : Int) < 4) ∧
    ktxFileStream_setpos (some sampleSt) 4 = (KTX_INVALID_OPERATION, some sampleSt) :=
  ⟨⟨by norm_num, by norm_num, by decide⟩,
   setpos_beyond_size_rejected sampleSt 4 (by norm_num) (by norm_num) (by decide)⟩

/-- Claim C10: a negative `setPosition` offset is rejected with
`KTX_INVALID_OPERATION`, not `KTX_INVALID_VALUE`: the signed `off_t`
offset is converted to `size_t` for the range check, so every negative
offset compares greater than the file size and is refused before any
seek, leaving the state unchanged. -/
theorem setpos_negative_rejected (st : FileState) (off : Int)
    (hneg : off < 0) (hlo : -(2 ^ 63) ≤ off) (hsz : st.content.length < 2 ^ 63) :
    ktxFileStream_setpos (some st) off = (KTX_INVALID_OPERATION, some st) ∧
    KTX_INVALID_OPERATION ≠ KTX_INVALID_VALUE := by
  have hts : 2 ^ 63 ≤ toSizeT off := toSizeT_neg_large off hneg hlo
  have hcmp : st.content.length < toSizeT off := by omega
  refine ⟨?_, by decide⟩
  simp [ktxFileStream_setpos, ktxFileStream_getsize, ktxFileStream_getsize_withStat,
    fstatSize, hcmp]

/-- Witness for the negative `setPosition` rejection: offset `-1` on a
3-byte file. -/
theorem setpos_negative_rejected_witness :
    ((-1 : Int) < 0 ∧ -(2 ^ 63) ≤ (-1 : Int) ∧ sampleSt.content.length < 2 ^ 63) ∧
    ktxFileStream_setpos (some sampleSt) (-1) = (KTX_INVALID_OPERATION, some sampleSt) ∧
    KTX_INVALID_OPERATION ≠ KTX_INVALID_VALUE :=
  ⟨⟨by norm_num, by norm_num, by decide⟩,
   setpos_negative_rejected sampleSt (-1) (by norm_num) (by norm_num) (by decide)⟩

/-- Claim C7: `write` is all-or-nothing: on a device that accepts the
whole transfer it succeeds, writes `size × count` bytes from the source
at the current position (extending the file when writing past its
previous end, as the length equation shows), and advances the position
by `size × count`; on a device that cannot accept all requested bytes it
fails with `KTX_FILE_WRITE_ERROR`. -/
theorem write_all_or_nothing (st stFull : FileState) (src : List Nat)
    (sz cnt : Int) (c : Nat)
    (h1 : 0 < sz) (h2 : sz < 2 ^ 31) (h3 : 0 < cnt) (h4 : cnt < 2 ^ 31)
    (hsrc : cnt.toNat * sz.toNat ≤ src.length)
    (hcap : st.cap = none)
    (hcapF : stFull.cap = some c) (hshort : c < stFull.pos + cnt.toNat * sz.toNat) :
    (ktxFileStream_write (some st) (some src) sz cnt =
       (KTX_SUCCESS, some { st with
          content := writeBytes st.content st.pos (src.take (cnt.toNat * sz.toNat)),
          pos := st.pos + cnt.toNat * sz.toNat }) ∧
     (writeBytes st.content st.pos (src.take (cnt.toNat * sz.toNat))).length =
       max st.content.length (st.pos + cnt.toNat * sz.toNat) ∧
     ((writeBytes st.content st.pos (src.take (cnt.toNat * sz.toNat))).drop st.pos).take
         (cnt.toNat * sz.toNat) = src.take (cnt.toNat * sz.toNat)) ∧
    (ktxFileStream_write (some stFull) (some src) sz cnt).1 = KTX_FILE_WRITE_ERROR := by
  have htsz : toSizeT sz = sz.toNat := toSizeT_eq_toNat sz (le_of_lt h1) (by omega)
  have htcnt : toSizeT cnt = cnt.toNat := toSizeT_eq_toNat cnt (le_of_lt h3) (by omega)
  have hszn : 0 < sz.toNat := by omega
  have hcntn : 0 < cnt.toNat := by omega
  have hbl : (src.take (cnt.toNat * sz.toNat)).length = cnt.toNat * sz.toNat := by
    simp only [List.length_take]
    omega
  refine ⟨⟨?_, ?_, ?_⟩, ?_⟩
  · have hf := fwrite_full st src sz.toNat cnt.toNat hszn hcntn hcap
    simp [ktxFileStream_write, htsz, htcnt, hf]
  · rw [writeBytes_length, hbl]
  · have h := writeBytes_readback st.content st.pos (src.take (cnt.toNat * sz.toNat))
    rwa [hbl] at h
  · have hf := fwrite_short stFull src sz.toNat cnt.toNat c hszn hcntn hcapF hshort
    have hne : (fwrite stFull src sz.toNat cnt.toNat).1 ≠ cnt.toNat := by omega
    simp [ktxFileStream_write, htsz, htcnt, hne]

/-- Witness for the write all-or-nothing law: writing 2 elements of 2
bytes succeeds on an unbounded device and fails on a 2-byte device. -/
theorem write_all_or_nothing_witness :
    ((0 : Int) < 2 ∧ (2 : Int) < 2 ^ 31 ∧
     (2 : Int).toNat * (2 : Int).toNat ≤ ([9, 8, 7, 6] : List Nat).length ∧
     sampleSt.cap = none ∧
     (FileState.mk [] 0 (some 2)).cap = some 2 ∧
     2 < (FileState.mk [] 0 (some 2)).pos + (2 : Int).toNat * (2 : Int).toNat) ∧
    (ktxFileStream_write (some sampleSt) (some [9, 8, 7, 6]) 2 2 =
       (KTX_SUCCESS, some { sampleSt with
          content := writeBytes sampleSt.content sampleSt.pos
            (([9, 8, 7, 6] : List Nat).take ((2 : Int).toNat * (2 : Int).toNat)),
          pos := sampleSt.pos + (2 : Int).toNat * (2 : Int).toNat }) ∧
     (writeBytes sampleSt.content sampleSt.pos
        (([9, 8, 7, 6] : List Nat).take ((2 : Int).toNat * (2 : Int).toNat))).length =
       max sampleSt.content.length (sampleSt.pos + (2 : Int).toNat * (2 : Int).toNat) ∧
     ((writeBytes sampleSt.content sampleSt.pos
         (([9, 8, 7, 6] : List Nat).take ((2 : Int).toNat * (2 : Int).toNat))).drop
         sampleSt.pos).take ((2 : Int).toNat * (2 : Int).toNat) =
       ([9, 8, 7, 6] : List Nat).take ((2 : Int).toNat * (2 : Int).toNat)) ∧
    (ktxFileStream_write (some (FileState.mk [] 0 (some 2))) (some [9, 8, 7, 6]) 2 2).1 =
      KTX_FILE_WRITE_ERROR :=
  ⟨⟨by norm_num, by norm_num, by decide, rfl, rfl, by decide⟩,
   write_all_or_nothing sampleSt (FileState.mk [] 0 (some 2)) [9, 8, 7, 6] 2 2 2
     (by norm_num) (by norm_num) (by norm_num) (by norm_num) (by decide) rfl rfl
     (by decide)⟩

/-- Claim C2 (amended): the write-then-read round trip holds for every
nonempty byte sequence: writing the bytes at the current offset,
repositioning to that offset with `setPosition`, and reading back the
same number of bytes succeeds and yields exactly the bytes written. -/
theorem write_then_read_roundtrip (st : FileState) (bs : List Nat)
    (hne : bs ≠ []) (hcap : st.cap = none) (hlen : bs.length < 2 ^ 31)
    (hpos : st.pos < 2 ^ 63) :
    ∃ st₁ st₂ st₃,
      ktxFileStream_write (some st) (some bs) 1 (bs.length : Int) =
        (KTX_SUCCESS, some st₁) ∧
      ktxFileStream_setpos (some st₁) (st.pos : Int) = (KTX_SUCCESS, some st₂) ∧
      ktxFileStream_read (some st₂) true (bs.length : Int) =
        (KTX_SUCCESS, some st₃, bs) := by
  have hn : 0 < bs.length := List.length_pos.mpr hne
  have hts1 : toSizeT 1 = 1 := by decide
  have htsn : toSizeT (bs.length : Int) = bs.length := toSizeT_natCast bs.length (by omega)
  have htsp : toSizeT (st.pos : Int) = st.pos := toSizeT_natCast st.pos (by omega)
  have hwb : (writeBytes st.content st.pos bs).length =
      max st.content.length (st.pos + bs.length) := writeBytes_length _ _ _
  refine ⟨⟨writeBytes st.content st.pos bs, st.pos + bs.length, st.cap⟩,
          ⟨writeBytes st.content st.pos bs, st.pos, st.cap⟩,
          ⟨writeBytes st.content st.pos bs, st.pos + bs.length, st.cap⟩, ?_, ?_, ?_⟩
  · have hf := fwrite_full st bs 1 bs.length (by omega) hn hcap
    rw [Nat.mul_one, List.take_length] at hf
    simp [ktxFileStream_write, hts1, htsn, hf]
  · have hcmp : ¬(st.pos > (writeBytes st.content st.pos bs).length) := by
      rw [hwb]; omega
    have hnn : ¬((st.pos : Int) < 0) := by omega
    simp [ktxFileStream_setpos, ktxFileStream_getsize, ktxFileStream_getsize_withStat,
      fstatSize, fseekFile, htsp, hcmp, hnn]
  · have hle : (⟨writeBytes st.content st.pos bs, st.pos, st.cap⟩ : FileState).pos +
        bs.length ≤
        (⟨writeBytes st.content st.pos bs, st.pos, st.cap⟩ : FileState).content.length := by
      simp only []
      rw [hwb]; omega
    have hf3 := fread_one_success ⟨writeBytes st.content st.pos bs, st.pos, st.cap⟩
      bs.length hn hle
    simp [ktxFileStream_read, htsn, hf3, writeBytes_readback]

/-- Witness for the nonempty round-trip law on an empty file with the
single byte `[5]`. -/
theorem write_then_read_roundtrip_witness :
    (([5] : List Nat) ≠ [] ∧ (FileState.mk [] 0 none).cap = none ∧
     ([5] : List Nat).length < 2 ^ 31 ∧ (FileState.mk [] 0 none).pos < 2 ^ 63) ∧
    (∃ st₁ st₂ st₃,
      ktxFileStream_write (some (FileState.mk [] 0 none)) (some [5]) 1
          (([5] : List Nat).length : Int) = (KTX_SUCCESS, some st₁) ∧
      ktxFileStream_setpos (some st₁) ((FileState.mk [] 0 none).pos : Int) =
        (KTX_SUCCESS, some st₂) ∧
      ktxFileStream_read (some st₂) true (([5] : List Nat).length : Int) =
        (KTX_SUCCESS, some st₃, [5])) :=
  ⟨⟨by decide, rfl, by norm_num, by norm_num⟩,
   write_then_read_roundtrip (FileState.mk [] 0 none) [5] (by decide) rfl
     (by norm_num) (by norm_num)⟩
